import Mathlib

/-!
Verification of the region API of `rhub-api` (`src/rhub/api/lab/region.py`)
against its natural-language specification.

The Python module is shallowly embedded: the database is an explicit record
of entity lists, the authentication helpers (`rhub.auth.utils`) are an
explicit environment of functions, each endpoint function is a Lean
function from the database and the caller identity to an `Except` value
(Python exceptions and `problem(...)` returns both become `Except.error`),
and SQLAlchemy query chains become list operations.
-/

namespace RHub

/-- Errors surfaced by the endpoints.  Python exceptions
(`Forbidden`, `KeyError`, `TypeError`, `AttributeError`, integrity errors
raised at commit) and `connexion.problem(...)` responses are both modelled
as error results. -/
inductive ApiError where
  | problem (status : Nat) (title : String) (detail : String)
  | forbidden (detail : String)
  | keyError (key : String)
  | typeError (detail : String)
  | attributeError (detail : String)
  | integrityError (detail : String)
  deriving DecidableEq, Repr

/-- A quota mapping: Python dict from limit name to a numeric value or
`None` (`Quota.to_dict()` / quota-usage dicts). -/
abbrev QuotaDict := List (String × Option Int)

/-- The authentication environment: `rhub.auth.utils.user_is_admin` and
`rhub.auth.utils.user_group_ids`, keyed by the caller id. -/
structure AuthDB where
  userIsAdmin : Nat → Bool
  userGroupIds : Nat → List Nat

/-- Row of the `lab_region` table, with the quota sub-resources attached.
`get_user_quota_usage` and `get_total_quota_usage` are the consumption
methods of `rhub.lab.model.Region` (not under `src/`); the spec describes
them as a pure read-projection computed by an external collaborator, so
they are modelled as opaque per-region data. -/
structure Region where
  id : Nat
  name : String
  enabled : Bool
  reservations_enabled : Bool
  location_id : Option Nat
  owner_group_id : Nat
  users_group_id : Option Nat
  tower_id : Nat
  openstack_id : Nat
  satellite_id : Option Nat
  dns_id : Option Nat
  user_quota : Option QuotaDict
  total_quota : Option QuotaDict
  get_user_quota_usage : Nat → Option QuotaDict
  get_total_quota_usage : Option QuotaDict

/-- Row of the product table (only id/name/enabled are used here). -/
structure Product where
  id : Nat
  name : String
  enabled : Bool
  deriving DecidableEq, Repr

/-- Row of the region↔product association table. -/
structure RegionProduct where
  region_id : Nat
  product_id : Nat
  enabled : Bool
  deriving DecidableEq, Repr

/-- Row of the location table. -/
structure Location where
  id : Nat
  name : String
  deriving DecidableEq, Repr

/-- Row of the auth group table. -/
structure Group where
  id : Nat
  name : String
  deriving DecidableEq, Repr

/-- The relational state the module queries and mutates. -/
structure DB where
  regions : List Region
  products : List Product
  region_products : List RegionProduct
  locations : List Location
  groups : List Group

/-- SQL `LIKE` pattern matching over explicit character lists, with
case-insensitive character comparison (`ILIKE`): `%` matches any substring,
`_` matches exactly one character. -/
def likeMatch : List Char → List Char → Bool
  | [], s => s.isEmpty
  | '%' :: ps, s => s.tails.any (fun t => likeMatch ps t)
  | '_' :: ps, _ :: cs => likeMatch ps cs
  | '_' :: _, [] => false
  | p :: ps, c :: cs => (p.toLower == c.toLower) && likeMatch ps cs
  | _ :: _, [] => false

/-- `column.ilike(pattern)`. -/
def ilike (s : String) (pat : String) : Bool :=
  likeMatch pat.toList s.toList

/-- `flask.url_for` for a routed endpoint with one id argument, modelled as
the endpoint name plus the id. -/
def url_for (endpoint : String) (id : Nat) : String :=
  endpoint ++ "/" ++ toString id

/-- `_region_href` (lines 20-44): the cross-reference link dict of a
region; `satellite_server`, `dns_server` and `users_group` entries only
when the corresponding id is set. -/
def region_href (region : Region) : List (String × String) :=
  [ ("region", url_for "lab_region_get_region" region.id),
    ("region_usage", url_for "lab_region_get_usage" region.id),
    ("region_products", url_for "lab_region_list_region_products" region.id),
    ("tower", url_for "tower_get_server" region.tower_id),
    ("owner_group", url_for "auth_group_group_get" region.owner_group_id),
    ("openstack_cloud", url_for "openstack_cloud_get" region.openstack_id) ]
  ++ (match region.satellite_id with
      | some sid => [("satellite_server", url_for "satellite_server_get" sid)]
      | none => [])
  ++ (match region.dns_id with
      | some did => [("dns_server", url_for "dns_server_get" did)]
      | none => [])
  ++ (match region.users_group_id with
      | some gid => [("users_group", url_for "auth_group_group_get" gid)]
      | none => [])

/-- `_user_can_access_region` (lines 47-54). -/
def user_can_access_region (auth : AuthDB) (region : Region) (user_id : Nat) : Bool :=
  if auth.userIsAdmin user_id then true
  else if region.users_group_id == none then true  -- shared region
  else
    let user_groups := auth.userGroupIds user_id
    (match region.users_group_id with
     | some g => user_groups.contains g
     | none => false) || user_groups.contains region.owner_group_id

/-- `_user_can_modify_region` (lines 57-60). -/
def user_can_modify_region (auth : AuthDB) (region : Region) (user_id : Nat) : Bool :=
  if auth.userIsAdmin user_id then true
  else !((auth.userGroupIds user_id).contains region.owner_group_id)

/-- `_query_regions_with_permissions` (lines 63-73): the scoped region
collection all list/aggregate reads start from. -/
def query_regions_with_permissions (auth : AuthDB) (user : Nat)
    (regions : List Region) : List Region :=
  if auth.userIsAdmin user then regions
  else
    let user_groups := auth.userGroupIds user
    regions.filter (fun r =>
      r.users_group_id == none ||
      (match r.users_group_id with
       | some g => user_groups.contains g
       | none => false) ||
      user_groups.contains r.owner_group_id)

/-- The optional filters of the region list request (`filter_`). -/
structure RegionFilter where
  name : Option String := none
  location : Option String := none
  enabled : Option Bool := none
  reservations_enabled : Option Bool := none
  owner_group_id : Option Nat := none
  owner_group_name : Option String := none
  users_group_id : Option Nat := none
  users_group_name : Option String := none

/-- The dynamic optional-filter pattern of the source
(`if key in filter_: query = query.filter(...)`): apply the predicate only
when the filter value is present. -/
def opt_filter (o : Option β) (p : β → Region → Bool) (l : List Region) : List Region :=
  match o with
  | some v => l.filter (p v)
  | none => l

/-- The outer join to `Location` (lines 79-82): the location row of a
region, if any; regions without a location still appear. -/
def region_location (db : DB) (r : Region) : Option Location :=
  r.location_id.bind (fun lid => db.locations.find? (fun loc => loc.id == lid))

/-- The aliased outer join to the owner group (lines 103-108). -/
def region_owner_group (db : DB) (r : Region) : Option Group :=
  db.groups.find? (fun g => g.id == r.owner_group_id)

/-- The aliased outer join to the users group (lines 116-121). -/
def region_users_group (db : DB) (r : Region) : Option Group :=
  r.users_group_id.bind (fun gid => db.groups.find? (fun g => g.id == gid))

/-- Insertion into a list sorted by `le`. -/
def insert_by (le : α → α → Bool) (a : α) : List α → List α
  | [] => [a]
  | b :: bs => if le a b then a :: b :: bs else b :: insert_by le a bs

/-- Stable insertion sort by `le`. -/
def sort_by (le : α → α → Bool) (l : List α) : List α :=
  l.foldr (insert_by le) []

/-- Modelled from the spec: `db_sort` lives in `rhub.api.utils`, which is
not under `src/`.  Per the spec it accepts an ordered list of
(field, descending) pairs restricted to the allow-list `name`/`location`
(mapped to `lab_region.name` / `lab_location.name`) and rejects unknown
fields instead of ignoring them. -/
def db_sort (db : DB) (regions : List Region) (sort_spec : List (String × Bool)) :
    Except ApiError (List Region) :=
  if sort_spec.all (fun s => s.1 == "name" || s.1 == "location") then
    .ok (sort_spec.reverse.foldl
      (fun acc s =>
        let key : Region → String :=
          if s.1 == "name" then (fun r => r.name)
          else (fun r => (match region_location db r with
                          | some loc => loc.name
                          | none => ""))
        if s.2 then sort_by (fun a b => key b ≤ key a) acc
        else sort_by (fun a b => key a ≤ key b) acc)
      regions)
  else .error (.problem 400 "Bad Request" "invalid sort field")

/-- One page of region list results: the rendered rows (`to_dict()`
together with the `_href` links) and the filtered-but-unpaginated count. -/
structure ListResult where
  data : List (Region × List (String × String))
  total : Nat

/-- Page slicing and rendering of the filtered region query
(lines 130-136): `regions.limit(limit).offset(page * limit)` emits
`LIMIT limit OFFSET page * limit`, i.e. drop `page * limit` rows and take
`limit` rows, while `regions.count()` counts the unpaginated query. -/
def page_result (regions : List Region) (page limit : Nat) : ListResult :=
  { data := ((regions.drop (page * limit)).take limit).map
      (fun r => (r, region_href r)),
    total := regions.length }

/-- `list_regions` (lines 76-136). -/
def list_regions (auth : AuthDB) (db : DB) (user : Nat) (filt : RegionFilter)
    (sort_spec : Option (List (String × Bool))) (page limit : Nat) :
    Except ApiError ListResult :=
  let regions := query_regions_with_permissions auth user db.regions
  let regions := opt_filter filt.name (fun p r => ilike r.name p) regions
  let regions := opt_filter filt.location
    (fun p r => match region_location db r with
                | some loc => ilike loc.name p
                | none => false) regions   -- NULL ILIKE pattern is not true
  let regions := opt_filter filt.enabled (fun b r => r.enabled == b) regions
  let regions := opt_filter filt.reservations_enabled
    (fun b r => r.reservations_enabled == b) regions
  let regions := opt_filter filt.owner_group_id
    (fun g r => r.owner_group_id == g) regions
  let regions := opt_filter filt.owner_group_name
    (fun v r => match region_owner_group db r with
                | some g => g.name == v
                | none => false) regions
  let regions := opt_filter filt.users_group_id
    (fun g r => r.users_group_id == some g) regions
  let regions := opt_filter filt.users_group_name
    (fun v r => match region_users_group db r with
                | some g => g.name == v
                | none => false) regions
  match sort_spec with
  | some s => (db_sort db regions s).map (fun sorted => page_result sorted page limit)
  | none => .ok (page_result regions page limit)

/-- The `vault` collaborator passed to `create_region`/`update_region`
(unused by the code under verification). -/
structure Vault where

/-- The request body of `create_region`.  `Region.from_dict` lives in
`rhub.lab.model` (not under `src/`); modelled from the spec as the
caller-supplied attributes of a new region, the id being assigned by the
storage engine at commit. -/
structure RegionCreate where
  name : String
  enabled : Bool
  reservations_enabled : Bool
  location_id : Option Nat
  owner_group_id : Nat
  users_group_id : Option Nat
  tower_id : Nat
  openstack_id : Nat
  satellite_id : Option Nat
  dns_id : Option Nat
  user_quota : Option QuotaDict
  total_quota : Option QuotaDict

/-- The id the storage engine assigns to a newly inserted region. -/
def next_region_id (db : DB) : Nat :=
  (db.regions.map (fun r => r.id)).foldl Nat.max 0 + 1

/-- `model.Region.from_dict(body)` followed by the id assignment performed
at commit.  Modelled from the spec: `from_dict` is model code not under
`src/`; the consumption projections of a freshly created region are
empty. -/
def region_from_dict (db : DB) (body : RegionCreate) : Region :=
  { id := next_region_id db,
    name := body.name,
    enabled := body.enabled,
    reservations_enabled := body.reservations_enabled,
    location_id := body.location_id,
    owner_group_id := body.owner_group_id,
    users_group_id := body.users_group_id,
    tower_id := body.tower_id,
    openstack_id := body.openstack_id,
    satellite_id := body.satellite_id,
    dns_id := body.dns_id,
    user_quota := body.user_quota,
    total_quota := body.total_quota,
    get_user_quota_usage := fun _ => none,
    get_total_quota_usage := none }

/-- `create_region` (lines 139-150): no permission check of any kind; the
row is added and committed unconditionally.  The storage engine enforces
the uniqueness of the region name at commit (spec §5/§7), surfacing a
violation as an integrity error. -/
def create_region (vault : Vault) (db : DB) (body : RegionCreate) (user : Nat) :
    Except ApiError (DB × (Region × List (String × String))) :=
  let region := region_from_dict db body
  if db.regions.any (fun r => r.name == body.name) then
    .error (.integrityError "duplicate region name")
  else
    .ok ({ db with regions := db.regions ++ [region] }, (region, region_href region))

/-- `get_region` (lines 153-161). -/
def get_region (db : DB) (auth : AuthDB) (region_id : Nat) (user : Nat) :
    Except ApiError (Region × List (String × String)) :=
  match db.regions.find? (fun r => r.id == region_id) with
  | none => .error (.problem 404 "Not Found"
      ("Region " ++ toString region_id ++ " does not exist"))
  | some region =>
    if !(user_can_access_region auth region user) then
      .error (.forbidden "You dont have access to this region.")
    else
      .ok (region, region_href region)

/-- The request body of `update_region`: a partial-field patch.
`Region.update_from_dict` is model code not under `src/`; modelled from
the spec (§3 lifecycle: updated via partial-field patch). -/
structure RegionPatch where
  name : Option String := none
  enabled : Option Bool := none
  reservations_enabled : Option Bool := none
  location_id : Option (Option Nat) := none
  owner_group_id : Option Nat := none
  users_group_id : Option (Option Nat) := none

/-- Modelled from the spec: apply a partial-field patch to a region. -/
def apply_patch (r : Region) (body : RegionPatch) : Region :=
  { r with
    name := body.name.getD r.name,
    enabled := body.enabled.getD r.enabled,
    reservations_enabled := body.reservations_enabled.getD r.reservations_enabled,
    location_id := body.location_id.getD r.location_id,
    owner_group_id := body.owner_group_id.getD r.owner_group_id,
    users_group_id := body.users_group_id.getD r.users_group_id }

/-- `update_region` (lines 164-181). -/
def update_region (vault : Vault) (db : DB) (auth : AuthDB) (region_id : Nat)
    (body : RegionPatch) (user : Nat) :
    Except ApiError (DB × (Region × List (String × String))) :=
  match db.regions.find? (fun r => r.id == region_id) with
  | none => .error (.problem 404 "Not Found"
      ("Region " ++ toString region_id ++ " does not exist"))
  | some region =>
    if !(user_can_modify_region auth region user) then
      .error (.forbidden "You dont have write access to this region.")
    else
      let region := apply_patch region body
      let regions := db.regions.map (fun r => if r.id == region_id then region else r)
      .ok ({ db with regions := regions }, (region, region_href region))

/-- A staged deletion inside the `delete_region` transaction. -/
inductive DbOp where
  | del_relation (row : RegionProduct)
  | del_region (id : Nat)
  deriving DecidableEq, Repr

/-- Apply one staged deletion to the database state. -/
def apply_op (db : DB) : DbOp → DB
  | .del_relation row =>
    { db with region_products := db.region_products.filter (fun q => !(q == row)) }
  | .del_region id =>
    { db with regions := db.regions.filter (fun r => !(r.id == id)) }

/-- The deletions `delete_region` stages before its single commit
(lines 192-200): every `RegionProduct` row of the region first (flushed
before the region row), then the region itself. -/
def delete_region_ops (db : DB) (region : Region) : List DbOp :=
  let q := db.region_products.filter (fun rp => rp.region_id == region.id)
  (if q.length > 0 then q.map DbOp.del_relation else []) ++ [DbOp.del_region region.id]

/-- The storage engine transaction: all staged operations commit together,
or none of them applies (rollback), per spec §5. -/
def run_transaction (db : DB) (ops : List DbOp) (commit_ok : Bool) : DB :=
  if commit_ok then ops.foldl apply_op db else db

/-- `delete_region` (lines 184-206), with a committing transaction. -/
def delete_region (db : DB) (auth : AuthDB) (region_id : Nat) (user : Nat) :
    Except ApiError DB :=
  match db.regions.find? (fun r => r.id == region_id) with
  | none => .error (.problem 404 "Not Found"
      ("Region " ++ toString region_id ++ " does not exist"))
  | some region =>
    if !(user_can_modify_region auth region user) then
      .error (.forbidden "You dont have write access to this region.")
    else
      .ok (run_transaction db (delete_region_ops db region) true)

/-- The optional filters of the region-product list request. -/
structure ProductFilter where
  name : Option String := none
  enabled : Option Bool := none

/-- Modelled from the spec: the product link dict built by
`rhub.api.lab.product._product_href` (not under `src/`). -/
def product_href (p : Product) : List (String × String) :=
  [("product", url_for "lab_product_get_product" p.id)]

/-- The `Product` row joined to an association row. -/
def product_of (db : DB) (q : RegionProduct) : Option Product :=
  db.products.find? (fun p => p.id == q.product_id)

/-- One row of the `list_region_products` response. -/
structure RegionProductEntry where
  region_id : Nat
  product_id : Nat
  product : Product
  enabled : Bool
  href : List (String × String)
  deriving DecidableEq, Repr

/-- `list_region_products` (lines 209-240).  Note the source's name-filter
branch reads `model.Region.name.ilike(filter_['enabled'])`: it consults
the `enabled` key (a `KeyError` when that key is absent) and compares the
*region* name column against it; when the `enabled` key is present its
value is a boolean, not a string pattern, which the database layer rejects
(modelled as a type error). -/
def list_region_products (db : DB) (auth : AuthDB) (region_id : Nat) (user : Nat)
    (filt : ProductFilter) : Except ApiError (List RegionProductEntry) :=
  match db.regions.find? (fun r => r.id == region_id) with
  | none => .error (.problem 404 "Not Found"
      ("Region " ++ toString region_id ++ " does not exist"))
  | some region =>
    if !(user_can_access_region auth region user) then
      .error (.forbidden "You dont have access to this region.")
    else
      let rel := db.region_products.filter (fun q => q.region_id == region.id)
      let name_filtered : Except ApiError (List RegionProduct) :=
        match filt.name with
        | some _ =>
          (match filt.enabled with
           | none => .error (.keyError "enabled")
           | some _ => .error (.typeError "ilike pattern is a boolean, not a string"))
        | none => .ok rel
      name_filtered.map (fun rel =>
        let rel := match filt.enabled with
          | some b => rel.filter (fun q =>
              match product_of db q with
              | some p => p.enabled == b
              | none => false)
          | none => rel
        rel.filterMap (fun q => (product_of db q).map (fun p =>
          { region_id := region.id,
            product_id := p.id,
            product := p,
            enabled := q.enabled,
            href := region_href region ++ product_href p })))

/-- The request body of `add_region_product`: the product id plus the
optional `enabled` flag. -/
structure AddProductBody where
  id : Nat
  enabled : Option Bool := none

/-- The association-row condition used by `add_region_product` and
`delete_region_product` (lines 255-258 and 291-294):
`RegionProduct.region_id == region.id AND RegionProduct.product_id ==
product.id`. -/
def rp_matches (rid pid : Nat) (q : RegionProduct) : Bool :=
  q.region_id == rid && q.product_id == pid

/-- `add_region_product` (lines 243-276): upsert with partial-update
semantics over the association table. -/
def add_region_product (db : DB) (auth : AuthDB) (region_id : Nat)
    (body : AddProductBody) (user : Nat) : Except ApiError DB :=
  match db.regions.find? (fun r => r.id == region_id) with
  | none => .error (.problem 404 "Not Found"
      ("Region " ++ toString region_id ++ " does not exist"))
  | some region =>
    if !(user_can_modify_region auth region user) then
      .error (.forbidden "You dont have write access to this region.")
    else
      match db.products.find? (fun p => p.id == body.id) with
      | none => .error (.problem 404 "Not Found"
          ("Product " ++ toString body.id ++ " does not exist"))
      | some product =>
        let matches_row := rp_matches region.id product.id
        let q := db.region_products.filter matches_row
        if q.length == 0 then
          let new_row : RegionProduct :=
            { region_id := region.id,
              product_id := product.id,
              enabled := body.enabled.getD true }
          .ok { db with region_products := db.region_products ++ [new_row] }
        else
          match body.enabled with
          | some b =>
            let updated := db.region_products.map
              (fun row => if matches_row row then { row with enabled := b } else row)
            .ok { db with region_products := updated }
          | none => .ok db

/-- `delete_region_product` (lines 279-304); the product id arrives as
`request.json['id']`. -/
def delete_region_product (db : DB) (auth : AuthDB) (region_id : Nat)
    (json_id : Nat) (user : Nat) : Except ApiError DB :=
  match db.regions.find? (fun r => r.id == region_id) with
  | none => .error (.problem 404 "Not Found"
      ("Region " ++ toString region_id ++ " does not exist"))
  | some region =>
    if !(user_can_modify_region auth region user) then
      .error (.forbidden "You dont have write access to this region.")
    else
      match db.products.find? (fun p => p.id == json_id) with
      | none => .error (.problem 404 "Not Found"
          ("Product " ++ toString json_id ++ " does not exist"))
      | some product =>
        let matches_row := rp_matches region.id product.id
        .ok { db with region_products :=
                db.region_products.filter (fun row => !(matches_row row)) }

/-- The four-field usage view of one region or of the aggregate
(`UsageView` of spec §4.4). -/
structure UsageView where
  user_quota : Option QuotaDict
  user_quota_usage : Option QuotaDict
  total_quota : Option QuotaDict
  total_quota_usage : Option QuotaDict
  deriving DecidableEq, Repr

/-- `region_to_usage` (lines 307-313). -/
def region_to_usage (region : Region) (user : Nat) : UsageView :=
  { user_quota := region.user_quota,
    user_quota_usage := region.get_user_quota_usage user,
    total_quota := region.total_quota,
    total_quota_usage := region.get_total_quota_usage }

/-- `get_usage` (lines 316-326). -/
def get_usage (db : DB) (auth : AuthDB) (region_id : Nat) (user : Nat)
    (with_openstack_limits : Option Bool) : Except ApiError UsageView :=
  match db.regions.find? (fun r => r.id == region_id) with
  | none => .error (.problem 404 "Not Found"
      ("Region " ++ toString region_id ++ " does not exist"))
  | some region =>
    if !(user_can_access_region auth region user) then
      .error (.forbidden "You dont have access to this region.")
    else
      .ok (region_to_usage region user)

/-- Python truthiness of a quota-dict value: `None` and `0` are falsy. -/
def truthy : Option Int → Bool
  | none => false
  | some n => n != 0

/-- The evaluation of `usage2[key]`: subscripting `None` raises a
`TypeError`, a missing key raises a `KeyError`, otherwise the stored value
(possibly `None`) is produced. -/
def dict_get (u : Option QuotaDict) (key : String) : Except ApiError (Option Int) :=
  match u with
  | none => .error (.typeError "NoneType object is not subscriptable")
  | some d =>
    match d.find? (fun kv => kv.1 == key) with
    | some kv => .ok kv.2
    | none => .error (.keyError key)

/-- The per-key body of the `add_usage` loop (lines 340-348):
`result[key] = usage1[key] + usage2[key]` succeeds only when both values
are numbers; on any exception the fallback keeps `usage1[key]` when it is
truthy, else evaluates `usage2[key]` again — re-raising outside the
`try` when that access was what failed — and keeps it when truthy, else
stores `None`. -/
def add_val (v1 : Option Int) (w2 : Except ApiError (Option Int)) :
    Except ApiError (Option Int) :=
  match v1, w2 with
  | some a, .ok (some b) => .ok (some (a + b))
  | _, _ =>
    if truthy v1 then .ok v1
    else
      match w2 with
      | .ok v2 => if truthy v2 then .ok v2 else .ok none
      | .error e => .error e

/-- The `for key in usage1.keys()` loop of `add_usage`, iterating the keys
of the first operand in order and building the result dict. -/
def add_usage_loop (get2 : String → Except ApiError (Option Int)) :
    QuotaDict → Except ApiError QuotaDict
  | [] => .ok []
  | kv :: rest =>
    match add_val kv.2 (get2 kv.1) with
    | .error e => .error e
    | .ok v =>
      match add_usage_loop get2 rest with
      | .error e => .error e
      | .ok r => .ok ((kv.1, v) :: r)

/-- `add_usage` (lines 337-349): merge of one quota sub-field.  Iterating
`usage1.keys()` with `usage1 = None` raises an `AttributeError`. -/
def add_usage (u1 u2 : Option QuotaDict) : Except ApiError QuotaDict :=
  match u1 with
  | none => .error (.attributeError "NoneType object has no attribute keys")
  | some d1 => add_usage_loop (fun k => dict_get u2 k) d1

/-- The merge of two whole usage views performed by one iteration of the
`get_all_usage` loop (lines 354-363): `add_usage` on each of the four
sub-fields. -/
def merge_views (a b : UsageView) : Except ApiError UsageView :=
  match add_usage a.user_quota b.user_quota with
  | .error e => .error e
  | .ok uq =>
    match add_usage a.user_quota_usage b.user_quota_usage with
    | .error e => .error e
    | .ok uqu =>
      match add_usage a.total_quota b.total_quota with
      | .error e => .error e
      | .ok tq =>
        match add_usage a.total_quota_usage b.total_quota_usage with
        | .error e => .error e
        | .ok tqu =>
          .ok { user_quota := some uq,
                user_quota_usage := some uqu,
                total_quota := some tq,
                total_quota_usage := some tqu }

/-- The response of `get_all_usage`: the running `"all"` aggregate plus
the per-region entries keyed by `str(region.id)`. -/
structure AllUsage where
  all : UsageView
  per_region : List (String × UsageView)
  deriving DecidableEq, Repr

/-- The `for i in range(1, len(regions))` loop of `get_all_usage`
(lines 351-363). -/
def get_all_usage_loop (user : Nat) (all : UsageView)
    (entries : List (String × UsageView)) :
    List Region → Except ApiError AllUsage
  | [] => .ok { all := all, per_region := entries }
  | r :: rest =>
    let cur := region_to_usage r user
    match merge_views all cur with
    | .error e => .error e
    | .ok all' => get_all_usage_loop user all' (entries ++ [(toString r.id, cur)]) rest

/-- `get_all_usage` (lines 329-364). -/
def get_all_usage (auth : AuthDB) (db : DB) (user : Nat) : Except ApiError AllUsage :=
  match query_regions_with_permissions auth user db.regions with
  | [] => .error (.problem 404 "Not Found" "No regions exist")
  | r0 :: rest =>
    let u0 := region_to_usage r0 user
    get_all_usage_loop user u0 [(toString r0.id, u0)] rest

/-! ## Specification-side definitions -/

/-- The read-access predicate as the spec words it: admin, or shared
region (`users_group_id` null), or member of the users group, or member
of the owner group. -/
def read_access_spec (auth : AuthDB) (region : Region) (user : Nat) : Bool :=
  auth.userIsAdmin user ||
  region.users_group_id == none ||
  (match region.users_group_id with
   | some g => (auth.userGroupIds user).contains g
   | none => false) ||
  (auth.userGroupIds user).contains region.owner_group_id

/-- The write-permission boolean as the claim words it: admin, or *not* a
member of the owner group. -/
def write_access_spec (auth : AuthDB) (region : Region) (user : Nat) : Bool :=
  auth.userIsAdmin user ||
  !((auth.userGroupIds user).contains region.owner_group_id)

/-- One optional region filter, as a total predicate: an absent filter
constrains nothing. -/
def filter_pred (o : Option β) (p : β → Region → Bool) (r : Region) : Bool :=
  match o with
  | some v => p v r
  | none => true

/-- The conjunction of all optional region filters of `list_regions`, in
source order. -/
def region_matches_filter (db : DB) (filt : RegionFilter) (r : Region) : Bool :=
  filter_pred filt.name (fun p r => ilike r.name p) r &&
  filter_pred filt.location
    (fun p r => match region_location db r with
                | some loc => ilike loc.name p
                | none => false) r &&
  filter_pred filt.enabled (fun b r => r.enabled == b) r &&
  filter_pred filt.reservations_enabled (fun b r => r.reservations_enabled == b) r &&
  filter_pred filt.owner_group_id (fun g r => r.owner_group_id == g) r &&
  filter_pred filt.owner_group_name
    (fun v r => match region_owner_group db r with
                | some g => g.name == v
                | none => false) r &&
  filter_pred filt.users_group_id (fun g r => r.users_group_id == some g) r &&
  filter_pred filt.users_group_name
    (fun v r => match region_users_group db r with
                | some g => g.name == v
                | none => false) r

/-- The filtered scoped region set of the claim: the full region
collection restricted to the caller's read scope and to the requested
filters, in storage order. -/
def filtered_scoped (auth : AuthDB) (db : DB) (user : Nat) (filt : RegionFilter) :
    List Region :=
  db.regions.filter (fun r =>
    read_access_spec auth r user && region_matches_filter db filt r)

/-- The per-key combination rule of the amended merge claim, stated
independently of the loop: when both operands are numbers the combined
value is their sum; otherwise a truthy (non-null, non-zero) first operand
is kept unchanged; otherwise a readable second operand is kept when
truthy and becomes null when not; otherwise the failure of reading the
second operand propagates. -/
def spec_combine (v1 : Option Int) (w2 : Except ApiError (Option Int)) :
    Except ApiError (Option Int) :=
  if v1.isSome && (w2.toOption.bind id).isSome then
    .ok (some (v1.getD 0 + (w2.toOption.bind id).getD 0))
  else if truthy v1 then
    .ok v1
  else
    w2.map (fun v2 => if truthy v2 then v2 else none)

/-- The per-key traversal of the amended merge: each key of the first
operand, in order, combined independently by `spec_combine`, the first
failure aborting the merge. -/
def amended_entries (u2 : Option QuotaDict) : QuotaDict → Except ApiError QuotaDict
  | [] => .ok []
  | kv :: rest =>
    match spec_combine kv.2 (dict_get u2 kv.1), amended_entries u2 rest with
    | .error e, _ => .error e
    | .ok _, .error e => .error e
    | .ok v, .ok r => .ok ((kv.1, v) :: r)

/-- The amended merge of one quota sub-field: the keys are those of the
first operand, in order, each combined independently by `spec_combine`;
a null first operand aborts immediately. -/
def add_usage_amended (u1 u2 : Option QuotaDict) : Except ApiError QuotaDict :=
  match u1 with
  | none => .error (.attributeError "NoneType object has no attribute keys")
  | some d1 => amended_entries u2 d1

/-- The amended merge of two whole usage views: each of the four
sub-fields merged by `add_usage_amended`. -/
def merge_views_amended (a b : UsageView) : Except ApiError UsageView :=
  match add_usage_amended a.user_quota b.user_quota with
  | .error e => .error e
  | .ok uq =>
    match add_usage_amended a.user_quota_usage b.user_quota_usage with
    | .error e => .error e
    | .ok uqu =>
      match add_usage_amended a.total_quota b.total_quota with
      | .error e => .error e
      | .ok tq =>
        match add_usage_amended a.total_quota_usage b.total_quota_usage with
        | .error e => .error e
        | .ok tqu =>
          .ok { user_quota := some uq,
                user_quota_usage := some uqu,
                total_quota := some tq,
                total_quota_usage := some tqu }

/-! ## Numeric usage views (for the order-independence claim) -/

/-- A quota dict whose key list is exactly `ks` and whose values are all
numbers. -/
def numeric_over (ks : List String) (d : QuotaDict) : Bool :=
  (d.map (fun kv => kv.1) == ks) && d.all (fun kv => kv.2.isSome)

/-- A usage view whose four sub-fields are all numeric quota dicts over
the common key list `ks`. -/
def numeric_view (ks : List String) (v : UsageView) : Bool :=
  (match v.user_quota with | some d => numeric_over ks d | none => false) &&
  (match v.user_quota_usage with | some d => numeric_over ks d | none => false) &&
  (match v.total_quota with | some d => numeric_over ks d | none => false) &&
  (match v.total_quota_usage with | some d => numeric_over ks d | none => false)

/-- Total pointwise merge of two quota dicts: the keys of the first
operand, each value summed with the like-keyed number of the second
operand when both are numbers, kept unchanged otherwise. -/
def add_q (d1 d2 : QuotaDict) : QuotaDict :=
  d1.map (fun kv =>
    (kv.1,
     match kv.2, (d2.find? (fun kw => kw.1 == kv.1)).map (fun kw => kw.2) with
     | some a, some (some b) => some (a + b)
     | _, _ => kv.2))

/-- Total pointwise merge of one optional sub-field. -/
def merge_field_num (o1 o2 : Option QuotaDict) : Option QuotaDict :=
  match o1, o2 with
  | some d1, some d2 => some (add_q d1 d2)
  | _, _ => o1

/-- Total pointwise merge of two usage views; agrees with `merge_views`
on numeric views. -/
def merge_views_num (a b : UsageView) : UsageView :=
  { user_quota := merge_field_num a.user_quota b.user_quota,
    user_quota_usage := merge_field_num a.user_quota_usage b.user_quota_usage,
    total_quota := merge_field_num a.total_quota b.total_quota,
    total_quota_usage := merge_field_num a.total_quota_usage b.total_quota_usage }

/-- The all-zero quota dict over the key list `ks`. -/
def zero_q (ks : List String) : QuotaDict :=
  ks.map (fun k => (k, some 0))

/-- The all-zero usage view over the key list `ks`: a left identity of
`merge_views_num` on numeric views. -/
def zero_view (ks : List String) : UsageView :=
  { user_quota := some (zero_q ks),
    user_quota_usage := some (zero_q ks),
    total_quota := some (zero_q ks),
    total_quota_usage := some (zero_q ks) }

/-! ## Helper lemmas -/

theorem user_can_access_eq_spec (auth : AuthDB) (r : Region) (u : Nat) :
    user_can_access_region auth r u = read_access_spec auth r u := by
  unfold user_can_access_region read_access_spec
  cases hadm : auth.userIsAdmin u
  · cases hug : r.users_group_id <;> simp [hug]
  · simp

theorem user_can_modify_eq_spec (auth : AuthDB) (r : Region) (u : Nat) :
    user_can_modify_region auth r u = write_access_spec auth r u := by
  unfold user_can_modify_region write_access_spec
  cases hadm : auth.userIsAdmin u <;> simp

theorem query_eq_filter (auth : AuthDB) (u : Nat) (l : List Region) :
    query_regions_with_permissions auth u l =
      l.filter (fun r => read_access_spec auth r u) := by
  unfold query_regions_with_permissions read_access_spec
  cases hadm : auth.userIsAdmin u
  · simp
  · simp

/-! ## C1: write-permission check -/

/-- C1: for every region and caller, the write-permission check used by
`update_region`, `delete_region`, `add_region_product` and
`delete_region_product` grants access iff the caller is an admin or does
*not* belong to the region's `owner_group_id`; in particular a non-admin
member of the owner group is denied with `Forbidden` by all four
endpoints. -/
theorem claim_c1 (auth : AuthDB) (db : DB) (vault : Vault) (u rid json_id : Nat)
    (r rr : Region) (patch : RegionPatch) (body : AddProductBody)
    (hfind : db.regions.find? (fun x => x.id == rid) = some rr)
    (hadmin : auth.userIsAdmin u = false)
    (hmem : (auth.userGroupIds u).contains rr.owner_group_id = true) :
    user_can_modify_region auth r u = write_access_spec auth r u ∧
    update_region vault db auth rid patch u =
      .error (.forbidden "You dont have write access to this region.") ∧
    delete_region db auth rid u =
      .error (.forbidden "You dont have write access to this region.") ∧
    add_region_product db auth rid body u =
      .error (.forbidden "You dont have write access to this region.") ∧
    delete_region_product db auth rid json_id u =
      .error (.forbidden "You dont have write access to this region.") := by
  have hmem' : rr.owner_group_id ∈ auth.userGroupIds u := by
    simpa using hmem
  have hmod : user_can_modify_region auth rr u = false := by
    simp [user_can_modify_region, hadmin, hmem']
  refine ⟨user_can_modify_eq_spec auth r u, ?_, ?_, ?_, ?_⟩
  · simp [update_region, hfind, hmod]
  · simp [delete_region, hfind, hmod]
  · simp [add_region_product, hfind, hmod]
  · simp [delete_region_product, hfind, hmod]

/-- Auth environment for the C1 witness: a non-admin caller whose only
group is group 5. -/
def c1_auth : AuthDB := ⟨fun _ => false, fun _ => [5]⟩

/-- Region for the C1 witness: owned by group 5. -/
def c1_region : Region :=
  { id := 1, name := "rdu", enabled := true, reservations_enabled := true,
    location_id := none, owner_group_id := 5, users_group_id := none,
    tower_id := 1, openstack_id := 1, satellite_id := none, dns_id := none,
    user_quota := none, total_quota := none,
    get_user_quota_usage := fun _ => none, get_total_quota_usage := none }

/-- Database for the C1 witness. -/
def c1_db : DB := ⟨[c1_region], [], [], [], []⟩

theorem claim_c1_witness :
    user_can_modify_region c1_auth c1_region 7 = write_access_spec c1_auth c1_region 7 ∧
    update_region ⟨⟩ c1_db c1_auth 1 {} 7 =
      .error (.forbidden "You dont have write access to this region.") ∧
    delete_region c1_db c1_auth 1 7 =
      .error (.forbidden "You dont have write access to this region.") ∧
    add_region_product c1_db c1_auth 1 { id := 2 } 7 =
      .error (.forbidden "You dont have write access to this region.") ∧
    delete_region_product c1_db c1_auth 1 2 7 =
      .error (.forbidden "You dont have write access to this region.") :=
  claim_c1 c1_auth c1_db ⟨⟩ 7 1 2 c1_region c1_region {} { id := 2 } rfl rfl rfl

/-! ## C2: read access and the scoped region set -/

/-- C2: read access (`get_region`, `get_usage`, `list_region_products`) is
granted iff the caller is an admin, or the region is shared
(`users_group_id` null), or the caller belongs to the users group or to
the owner group; the scoped region set of `list_regions`/`get_all_usage`
contains exactly these regions — the full collection for an admin. -/
theorem claim_c2 (auth : AuthDB) (db : DB) (u rid : Nat) (r rr : Region)
    (l : List Region) (filt : ProductFilter)
    (hfind : db.regions.find? (fun x => x.id == rid) = some rr) :
    user_can_access_region auth r u = read_access_spec auth r u ∧
    query_regions_with_permissions auth u l =
      l.filter (fun x => read_access_spec auth x u) ∧
    (auth.userIsAdmin u = true → query_regions_with_permissions auth u l = l) ∧
    ((get_region db auth rid u =
        .error (.forbidden "You dont have access to this region.")) ↔
      read_access_spec auth rr u = false) ∧
    ((get_usage db auth rid u none =
        .error (.forbidden "You dont have access to this region.")) ↔
      read_access_spec auth rr u = false) ∧
    ((list_region_products db auth rid u filt =
        .error (.forbidden "You dont have access to this region.")) ↔
      read_access_spec auth rr u = false) := by
  have hacc := user_can_access_eq_spec auth rr u
  refine ⟨user_can_access_eq_spec auth r u, query_eq_filter auth u l, ?_, ?_, ?_, ?_⟩
  · intro hadm; simp [query_regions_with_permissions, hadm]
  · cases hspec : read_access_spec auth rr u <;>
      simp [get_region, hfind, hacc, hspec]
  · cases hspec : read_access_spec auth rr u <;>
      simp [get_usage, hfind, hacc, hspec]
  · cases hspec : read_access_spec auth rr u
    · simp [list_region_products, hfind, hacc, hspec]
    · cases hn : filt.name <;> cases he : filt.enabled <;>
        simp [list_region_products, hfind, hacc, hspec, hn, he, Except.map]

/-- Auth environment for the C2 witness: a non-admin caller in no
groups. -/
def c2_auth : AuthDB := ⟨fun _ => false, fun _ => []⟩

/-- Region for the C2 witness: restricted to users group 9, owned by
group 5. -/
def c2_region : Region :=
  { id := 1, name := "rdu", enabled := true, reservations_enabled := true,
    location_id := none, owner_group_id := 5, users_group_id := some 9,
    tower_id := 1, openstack_id := 1, satellite_id := none, dns_id := none,
    user_quota := none, total_quota := none,
    get_user_quota_usage := fun _ => none, get_total_quota_usage := none }

/-- Database for the C2 witness. -/
def c2_db : DB := ⟨[c2_region], [], [], [], []⟩

theorem claim_c2_witness :
    user_can_access_region c2_auth c2_region 7 = read_access_spec c2_auth c2_region 7 ∧
    query_regions_with_permissions c2_auth 7 [c2_region] =
      [c2_region].filter (fun x => read_access_spec c2_auth x 7) ∧
    (c2_auth.userIsAdmin 7 = true →
      query_regions_with_permissions c2_auth 7 [c2_region] = [c2_region]) ∧
    ((get_region c2_db c2_auth 1 7 =
        .error (.forbidden "You dont have access to this region.")) ↔
      read_access_spec c2_auth c2_region 7 = false) ∧
    ((get_usage c2_db c2_auth 1 7 none =
        .error (.forbidden "You dont have access to this region.")) ↔
      read_access_spec c2_auth c2_region 7 = false) ∧
    ((list_region_products c2_db c2_auth 1 7 {} =
        .error (.forbidden "You dont have access to this region.")) ↔
      read_access_spec c2_auth c2_region 7 = false) :=
  claim_c2 c2_auth c2_db 7 1 c2_region c2_region [c2_region] {} rfl

/-! ## C9: empty scoped region set -/

/-- C9: when the caller's scoped region set is empty, `get_all_usage`
reports a not-found-style domain error with the message
"No regions exist" rather than an empty success payload or a crash. -/
theorem claim_c9 (auth : AuthDB) (db : DB) (u : Nat)
    (h : query_regions_with_permissions auth u db.regions = []) :
    get_all_usage auth db u = .error (.problem 404 "Not Found" "No regions exist") := by
  unfold get_all_usage
  rw [h]

/-- Database for the C9 witness: no regions at all. -/
def c9_db : DB := ⟨[], [], [], [], []⟩

/-- Auth environment for the C9 witness. -/
def c9_auth : AuthDB := ⟨fun _ => false, fun _ => []⟩

theorem claim_c9_witness :
    get_all_usage c9_auth c9_db 7 = .error (.problem 404 "Not Found" "No regions exist") :=
  claim_c9 c9_auth c9_db 7 rfl

/-! ## C10: create_region performs no authorization check -/

/-- C10: `create_region` performs no authorization check: for every
caller, admin or not and in any groups, it never raises `Forbidden` — the
region is added and committed unconditionally, and only a storage-level
uniqueness failure can prevent the insert. -/
theorem claim_c10 (vault : Vault) (db : DB) (body : RegionCreate) (u : Nat) :
    (∀ msg, create_region vault db body u ≠ .error (.forbidden msg)) ∧
    (db.regions.any (fun r => r.name == body.name) = false →
      create_region vault db body u =
        .ok ({ db with regions := db.regions ++ [region_from_dict db body] },
             (region_from_dict db body, region_href (region_from_dict db body)))) := by
  constructor
  · intro msg
    unfold create_region
    split <;> simp
  · intro h
    simp [create_region, h]

/-- Request body for the C10 witness. -/
def c10_body : RegionCreate :=
  { name := "rdu", enabled := true, reservations_enabled := true,
    location_id := none, owner_group_id := 5, users_group_id := none,
    tower_id := 1, openstack_id := 1, satellite_id := none, dns_id := none,
    user_quota := none, total_quota := none }

/-- Database for the C10 witness. -/
def c10_db : DB := ⟨[], [], [], [], []⟩

theorem claim_c10_witness :
    create_region ⟨⟩ c10_db c10_body 7 =
      .ok ({ c10_db with regions := c10_db.regions ++ [region_from_dict c10_db c10_body] },
           (region_from_dict c10_db c10_body, region_href (region_from_dict c10_db c10_body))) :=
  (claim_c10 ⟨⟩ c10_db c10_body 7).2 rfl

/-! ## C7: the product-name filter of list_region_products -/

/-- Auth environment for the C7 failing input: an admin caller, so read
access is granted and the filter path is reached. -/
def c7_auth : AuthDB := ⟨fun _ => true, fun _ => []⟩

/-- Region for the C7 failing input. -/
def c7_region : Region :=
  { id := 1, name := "rdu", enabled := true, reservations_enabled := true,
    location_id := none, owner_group_id := 5, users_group_id := none,
    tower_id := 1, openstack_id := 1, satellite_id := none, dns_id := none,
    user_quota := none, total_quota := none,
    get_user_quota_usage := fun _ => none, get_total_quota_usage := none }

/-- Product for the C7 failing input, associated with the region and
matching the requested name pattern. -/
def c7_product : Product := { id := 2, name := "product-one", enabled := true }

/-- Database for the C7 failing input: one region with one enabled
product association whose product name matches the pattern. -/
def c7_db : DB := ⟨[c7_region], [c7_product], [⟨1, 2, true⟩], [], []⟩

/-- C7: the claim says a product-name pattern filter returns exactly the
region's associations whose *product name* matches the pattern.  The code
instead evaluates `model.Region.name.ilike(filter_['enabled'])` inside
the name-filter branch: with a name filter present and no enabled filter,
`filter_['enabled']` raises `KeyError` — the request crashes instead of
returning the matching association. -/
theorem claim_c7_code_bug :
    list_region_products c7_db c7_auth 1 7 { name := some "product%" } =
      .error (.keyError "enabled") := by
  rfl

/-! ## C5: idempotent association upsert -/

theorem filter_length_map_invariant (p : α → Bool) (f : α → α)
    (hf : ∀ x, p (f x) = p x) (l : List α) :
    ((l.map f).filter p).length = (l.filter p).length := by
  induction l with
  | nil => rfl
  | cons a rest ih =>
    cases hpa : p a <;>
      simp [List.filter_cons, hf a, hpa, ih]

/-- C5: for a caller with write access, `add_region_product` inserts
exactly one association row (with `enabled` defaulting to true) when none
exists for the (region, product) pair; when a row already exists it never
produces a second row, and the stored `enabled` flag changes only when the
request body explicitly supplies one. -/
theorem claim_c5 (db : DB) (auth : AuthDB) (rid : Nat) (body : AddProductBody) (u : Nat)
    (rr : Region) (pp : Product)
    (hr : db.regions.find? (fun x => x.id == rid) = some rr)
    (hp : db.products.find? (fun x => x.id == body.id) = some pp)
    (hmod : user_can_modify_region auth rr u = true) :
    (db.region_products.filter (rp_matches rr.id pp.id) = [] →
      add_region_product db auth rid body u =
        .ok { db with region_products :=
                db.region_products ++
                  [({ region_id := rr.id, product_id := pp.id,
                      enabled := body.enabled.getD true } : RegionProduct)] } ∧
      ((db.region_products ++
          [({ region_id := rr.id, product_id := pp.id,
              enabled := body.enabled.getD true } : RegionProduct)]).filter
          (rp_matches rr.id pp.id)).length = 1) ∧
    (db.region_products.filter (rp_matches rr.id pp.id) ≠ [] →
      (body.enabled = none → add_region_product db auth rid body u = .ok db) ∧
      (∀ b, body.enabled = some b →
        add_region_product db auth rid body u =
          .ok { db with region_products := db.region_products.map (fun row =>
                  if rp_matches rr.id pp.id row then { row with enabled := b } else row) } ∧
        ((db.region_products.map (fun row =>
             if rp_matches rr.id pp.id row then { row with enabled := b } else row)).filter
            (rp_matches rr.id pp.id)).length =
          (db.region_products.filter (rp_matches rr.id pp.id)).length)) := by
  have hstep : add_region_product db auth rid body u =
      (if (db.region_products.filter (rp_matches rr.id pp.id)).length == 0 then
        .ok { db with region_products := db.region_products ++
                [({ region_id := rr.id, product_id := pp.id,
                    enabled := body.enabled.getD true } : RegionProduct)] }
      else
        match body.enabled with
        | some b =>
          .ok { db with region_products := db.region_products.map (fun row =>
                  if rp_matches rr.id pp.id row then { row with enabled := b } else row) }
        | none => .ok db) := by
    unfold add_region_product
    rw [hr, hp]
    simp [hmod]
  constructor
  · intro hq
    rw [hq] at hstep
    simp at hstep
    constructor
    · exact hstep
    · rw [List.filter_append, hq]
      simp [rp_matches]
  · intro hq
    have hlen : ((db.region_products.filter (rp_matches rr.id pp.id)).length == 0) = false := by
      simp [List.length_eq_zero, hq]
    rw [hlen] at hstep
    simp only [if_false, Bool.false_eq_true] at hstep
    constructor
    · intro he
      rw [he] at hstep
      exact hstep
    · intro b he
      rw [he] at hstep
      refine ⟨hstep, ?_⟩
      refine filter_length_map_invariant (rp_matches rr.id pp.id) _ ?_ db.region_products
      intro x
      by_cases hx : rp_matches rr.id pp.id x = true
      · simp only [hx, if_true]
        simp only [rp_matches] at hx ⊢
        exact hx
      · simp only [Bool.not_eq_true] at hx
        simp [hx]

/-- Auth environment for the C5 witness: an admin caller. -/
def c5_auth : AuthDB := ⟨fun _ => true, fun _ => []⟩

/-- Region for the C5 witness. -/
def c5_region : Region :=
  { id := 1, name := "rdu", enabled := true, reservations_enabled := true,
    location_id := none, owner_group_id := 5, users_group_id := none,
    tower_id := 1, openstack_id := 1, satellite_id := none, dns_id := none,
    user_quota := none, total_quota := none,
    get_user_quota_usage := fun _ => none, get_total_quota_usage := none }

/-- Product for the C5 witness. -/
def c5_product : Product := { id := 2, name := "product-one", enabled := true }

/-- Database for the C5 witness: no associations yet. -/
def c5_db : DB := ⟨[c5_region], [c5_product], [], [], []⟩

theorem claim_c5_witness :
    add_region_product c5_db c5_auth 1 { id := 2 } 7 =
      .ok { c5_db with region_products :=
              c5_db.region_products ++
                [({ region_id := c5_region.id, product_id := c5_product.id,
                    enabled := true } : RegionProduct)] } ∧
    ((c5_db.region_products ++
        [({ region_id := c5_region.id, product_id := c5_product.id,
            enabled := true } : RegionProduct)]).filter
        (rp_matches c5_region.id c5_product.id)).length = 1 :=
  (claim_c5 c5_db c5_auth 1 { id := 2 } 7 c5_region c5_product rfl rfl rfl).1 rfl

/-! ## C6: cascading region deletion -/

theorem fold_del_relations (db : DB) (rows : List RegionProduct) :
    (rows.map DbOp.del_relation).foldl apply_op db =
      { db with region_products :=
          db.region_products.filter (fun rp => !(rows.any (fun row => rp == row))) } := by
  induction rows generalizing db with
  | nil => simp
  | cons r rest ih =>
    simp only [List.map_cons, List.foldl_cons, apply_op, ih, List.filter_filter]
    congr 1
    apply List.filter_congr
    intro rp _
    simp [Bool.and_comm]

/-- The relation-delete block of `delete_region_ops` always equals the
plain map over the matching rows (the `count() > 0` guard is a no-op). -/
theorem delete_region_ops_eq (db : DB) (region : Region) :
    delete_region_ops db region =
      (db.region_products.filter (fun rp => rp.region_id == region.id)).map
          DbOp.del_relation
        ++ [DbOp.del_region region.id] := by
  unfold delete_region_ops
  cases hq : db.region_products.filter (fun rp => rp.region_id == region.id) <;> simp [hq]

/-- C6: for an authorized caller, `delete_region` deletes every
association row of the region and then the region itself within the
single committing transaction; no association row referencing the region
survives, nothing else changes, and a rollback of the same transaction
leaves the database untouched. -/
theorem claim_c6 (db : DB) (auth : AuthDB) (rid u : Nat) (rr : Region)
    (hr : db.regions.find? (fun x => x.id == rid) = some rr)
    (hmod : user_can_modify_region auth rr u = true) :
    delete_region db auth rid u =
      .ok (run_transaction db (delete_region_ops db rr) true) ∧
    (run_transaction db (delete_region_ops db rr) true).regions =
      db.regions.filter (fun r => !(r.id == rr.id)) ∧
    (run_transaction db (delete_region_ops db rr) true).region_products =
      db.region_products.filter (fun rp => !(rp.region_id == rr.id)) ∧
    (run_transaction db (delete_region_ops db rr) true).products = db.products ∧
    (run_transaction db (delete_region_ops db rr) true).locations = db.locations ∧
    (run_transaction db (delete_region_ops db rr) true).groups = db.groups ∧
    (∀ rp ∈ (run_transaction db (delete_region_ops db rr) true).region_products,
      rp.region_id ≠ rr.id) ∧
    run_transaction db (delete_region_ops db rr) false = db := by
  have hcommit : run_transaction db (delete_region_ops db rr) true =
      { db with
        regions := db.regions.filter (fun r => !(r.id == rr.id)),
        region_products :=
          db.region_products.filter (fun rp => !(rp.region_id == rr.id)) } := by
    rw [run_transaction, if_pos rfl, delete_region_ops_eq, List.foldl_append,
      fold_del_relations]
    simp only [List.foldl_cons, List.foldl_nil, apply_op]
    congr 1
    apply List.filter_congr
    intro rp hrp
    have key : ((db.region_products.filter (fun q => q.region_id == rr.id)).any
        (fun row => rp == row)) = (rp.region_id == rr.id) := by
      by_cases hmem : rp.region_id = rr.id
      · have hrhs : (rp.region_id == rr.id) = true := by simp [hmem]
        rw [hrhs, List.any_eq_true]
        exact ⟨rp, by simp [List.mem_filter, hrp, hmem], by simp⟩
      · have hrhs : (rp.region_id == rr.id) = false := by simp [hmem]
        rw [hrhs, List.any_eq_false]
        intro row hrow hbeq
        have h1 := List.of_mem_filter hrow
        have h2 : rp = row := by simpa using hbeq
        subst h2
        exact hmem (by simpa using h1)
    rw [key]
  refine ⟨?_, ?_, ?_, ?_, ?_, ?_, ?_, rfl⟩
  · simp [delete_region, hr, hmod]
  · rw [hcommit]
  · rw [hcommit]
  · rw [hcommit]
  · rw [hcommit]
  · rw [hcommit]
  · rw [hcommit]
    intro rp hrp
    have := List.of_mem_filter hrp
    simpa using this

/-- Auth environment for the C6 witness: an admin caller. -/
def c6_auth : AuthDB := ⟨fun _ => true, fun _ => []⟩

/-- First region for the C6 witness (the one being deleted, with two
associations). -/
def c6_region : Region :=
  { id := 1, name := "rdu", enabled := true, reservations_enabled := true,
    location_id := none, owner_group_id := 5, users_group_id := none,
    tower_id := 1, openstack_id := 1, satellite_id := none, dns_id := none,
    user_quota := none, total_quota := none,
    get_user_quota_usage := fun _ => none, get_total_quota_usage := none }

/-- Second region for the C6 witness (kept, with one association). -/
def c6_region2 : Region :=
  { id := 2, name := "phx", enabled := true, reservations_enabled := true,
    location_id := none, owner_group_id := 5, users_group_id := none,
    tower_id := 1, openstack_id := 1, satellite_id := none, dns_id := none,
    user_quota := none, total_quota := none,
    get_user_quota_usage := fun _ => none, get_total_quota_usage := none }

/-- Database for the C6 witness: region 1 carries associations to
products 2 and 3; region 2 keeps its own association. -/
def c6_db : DB :=
  ⟨[c6_region, c6_region2],
   [⟨2, "p-two", true⟩, ⟨3, "p-three", true⟩],
   [⟨1, 2, true⟩, ⟨1, 3, false⟩, ⟨2, 2, true⟩],
   [], []⟩

theorem claim_c6_witness :
    delete_region c6_db c6_auth 1 7 =
      .ok (run_transaction c6_db (delete_region_ops c6_db c6_region) true) ∧
    (run_transaction c6_db (delete_region_ops c6_db c6_region) true).region_products =
      c6_db.region_products.filter (fun rp => !(rp.region_id == c6_region.id)) ∧
    run_transaction c6_db (delete_region_ops c6_db c6_region) false = c6_db :=
  ⟨(claim_c6 c6_db c6_auth 1 7 c6_region rfl rfl).1,
   (claim_c6 c6_db c6_auth 1 7 c6_region rfl rfl).2.2.1,
   (claim_c6 c6_db c6_auth 1 7 c6_region rfl rfl).2.2.2.2.2.2.2⟩

/-! ## C8: filtered, scoped, paginated region listing -/

theorem opt_filter_eq_filter (o : Option β) (p : β → Region → Bool) (l : List Region) :
    opt_filter o p l = l.filter (fun r => filter_pred o p r) := by
  cases o <;> simp [opt_filter, filter_pred]

/-- C8: `list_regions` returns as data the zero-based page-index ×
page-size slice of the filtered scoped region set, and a total equal to
the length of the filtered-but-unpaginated set. -/
theorem claim_c8 (auth : AuthDB) (db : DB) (u : Nat) (filt : RegionFilter)
    (page limit : Nat) :
    list_regions auth db u filt none page limit =
      .ok { data := (((filtered_scoped auth db u filt).drop (page * limit)).take limit).map
              (fun r => (r, region_href r)),
            total := (filtered_scoped auth db u filt).length } := by
  unfold list_regions filtered_scoped page_result
  rw [query_eq_filter]
  simp only [opt_filter_eq_filter, List.filter_filter, region_matches_filter,
    Bool.and_assoc, Bool.and_comm, Bool.and_left_comm]

/-! ## C3: the usage merge rule -/

theorem add_val_eq_spec_combine (v1 : Option Int) (w2 : Except ApiError (Option Int)) :
    add_val v1 w2 = spec_combine v1 w2 := by
  rcases v1 with _ | a
  · rcases w2 with e | v2
    · rfl
    · rcases v2 with _ | b
      · rfl
      · by_cases hb : b = 0 <;>
          simp [add_val, spec_combine, truthy, hb, Except.map, Except.toOption]
  · rcases w2 with e | v2
    · rfl
    · rcases v2 with _ | b
      · rfl
      · rfl

theorem add_usage_loop_eq_amended (u2 : Option QuotaDict) (d1 : QuotaDict) :
    add_usage_loop (fun k => dict_get u2 k) d1 = amended_entries u2 d1 := by
  induction d1 with
  | nil => rfl
  | cons kv rest ih =>
    unfold add_usage_loop amended_entries
    rw [add_val_eq_spec_combine, ih]
    cases h : spec_combine kv.2 (dict_get u2 kv.1) <;>
      cases h2 : amended_entries u2 rest <;> rfl

theorem add_usage_eq_amended (u1 u2 : Option QuotaDict) :
    add_usage u1 u2 = add_usage_amended u1 u2 := by
  cases u1 with
  | none => rfl
  | some d1 => exact add_usage_loop_eq_amended u2 d1

/-- C3 (amended): the original claim fails because `add_usage` tests
presence by Python truthiness and iterates only the first operand's keys.
What holds instead, for every pair of usage views merged by
`get_all_usage` and each of the four sub-fields: the merged mapping
carries the keys of the first operand, and for each such key the combined
value is the numeric sum when both operands hold numbers, else the first
operand's value when it is truthy (non-null and non-zero), else the
second operand's value when readable and truthy, else null when readable
— while a null first sub-field, or a key that cannot be read from the
second operand when the first value is not truthy, raises an error. -/
theorem claim_c3 (a b : UsageView) :
    merge_views a b = merge_views_amended a b := by
  unfold merge_views merge_views_amended
  simp only [add_usage_eq_amended]

/-- C3 counterexample: the claim says a present value of `0` merged with
an absent (`None`) operand stays `0`; the code stores `None` instead,
because presence is tested with Python truthiness. -/
theorem claim_c3_counterexample :
    add_usage (some [("x", some 0)]) (some [("x", none)]) = .ok [("x", none)] ∧
    (Except.ok [("x", none)] : Except ApiError QuotaDict) ≠ .ok [("x", some 0)] := by
  constructor
  · rfl
  · intro h
    exact absurd (Except.ok.inj h) (by decide)

/-! ## C4: order (in)dependence of the usage aggregate -/

theorem numeric_over_keys {ks : List String} {d : QuotaDict}
    (h : numeric_over ks d = true) : d.map (fun kv => kv.1) = ks := by
  simp only [numeric_over, Bool.and_eq_true, beq_iff_eq] at h
  exact h.1

theorem numeric_over_values {ks : List String} {d : QuotaDict}
    (h : numeric_over ks d = true) : ∀ kv ∈ d, kv.2.isSome = true := by
  simp only [numeric_over, Bool.and_eq_true, List.all_eq_true] at h
  exact h.2

theorem find_entry_mem {d : QuotaDict} {k : String}
    (hk : k ∈ d.map (fun kv => kv.1)) :
    ∃ kv, d.find? (fun kw => kw.1 == k) = some kv ∧ kv ∈ d ∧ kv.1 = k := by
  obtain ⟨kv0, hmem0, hk0⟩ := List.mem_map.mp hk
  have hne : d.find? (fun kw => kw.1 == k) ≠ none := by
    rw [Ne, List.find?_eq_none]
    intro h
    exact absurd (by simp [hk0] : (fun kw => kw.1 == k) kv0 = true)
      (by simpa using h kv0 hmem0)
  obtain ⟨kv, hf⟩ := Option.ne_none_iff_exists'.mp hne
  refine ⟨kv, hf, List.mem_of_find?_eq_some hf, ?_⟩
  simpa using List.find?_some hf

theorem find_entry_not_mem {d : QuotaDict} {k : String}
    (hk : k ∉ d.map (fun kv => kv.1)) :
    d.find? (fun kw => kw.1 == k) = none := by
  rw [List.find?_eq_none]
  intro kv hkv hbeq
  exact hk (List.mem_map.mpr ⟨kv, hkv, by simpa using hbeq⟩)

theorem dict_get_numeric {ks : List String} {d2 : QuotaDict} {k : String}
    (h2 : numeric_over ks d2 = true) (hk : k ∈ ks) :
    ∃ b : Int, dict_get (some d2) k = .ok (some b) ∧
      (d2.find? (fun kw => kw.1 == k)).map (fun kw => kw.2) = some (some b) := by
  obtain ⟨kv, hf, hmem, _⟩ := find_entry_mem (by rw [numeric_over_keys h2]; exact hk)
  obtain ⟨b, hb⟩ := Option.isSome_iff_exists.mp (numeric_over_values h2 kv hmem)
  exact ⟨b, by simp [dict_get, hf, hb], by simp [hf, hb]⟩

theorem add_usage_loop_numeric {ks : List String} {d2 : QuotaDict}
    (h2 : numeric_over ks d2 = true) :
    ∀ d1 : QuotaDict, (∀ kv ∈ d1, kv.2.isSome = true ∧ kv.1 ∈ ks) →
    add_usage_loop (fun k => dict_get (some d2) k) d1 = .ok (add_q d1 d2) := by
  intro d1
  induction d1 with
  | nil => intro _; rfl
  | cons kv rest ih =>
    intro hall
    obtain ⟨hv, hk⟩ := hall kv (by simp)
    rcases kv with ⟨k, v⟩
    obtain ⟨a, ha⟩ := Option.isSome_iff_exists.mp hv
    obtain ⟨b, hget, hfind⟩ := dict_get_numeric h2 hk
    subst ha
    unfold add_usage_loop
    rw [hget, ih (fun kv2 h => hall kv2 (by simp [h]))]
    simp [add_val, add_q, hfind]

theorem add_usage_numeric {ks : List String} {d1 d2 : QuotaDict}
    (h1 : numeric_over ks d1 = true) (h2 : numeric_over ks d2 = true) :
    add_usage (some d1) (some d2) = .ok (add_q d1 d2) := by
  unfold add_usage
  refine add_usage_loop_numeric h2 d1 (fun kv hkv => ⟨numeric_over_values h1 kv hkv, ?_⟩)
  rw [← numeric_over_keys h1]
  exact List.mem_map_of_mem _ hkv

theorem add_q_numeric {ks : List String} {d1 d2 : QuotaDict}
    (h1 : numeric_over ks d1 = true) (h2 : numeric_over ks d2 = true) :
    numeric_over ks (add_q d1 d2) = true := by
  simp only [numeric_over, Bool.and_eq_true, beq_iff_eq, List.all_eq_true]
  constructor
  · show (add_q d1 d2).map (fun kv => kv.1) = ks
    rw [add_q, List.map_map]
    exact numeric_over_keys h1
  · intro x hx
    obtain ⟨kv, hkv, rfl⟩ := List.mem_map.mp hx
    have hval := numeric_over_values h1 kv hkv
    rcases hkv2 : kv.2 with _ | a
    · exact absurd hval (by simp [hkv2])
    · cases hl : (d2.find? (fun kw => kw.1 == kv.1)).map (fun kw => kw.2) with
      | none => simp [hkv2, hl]
      | some w => cases w <;> simp [hkv2, hl]

theorem add_q_comm {ks : List String} {x y : QuotaDict}
    (hx : numeric_over ks x = true) (hy : numeric_over ks y = true)
    (z : QuotaDict) : add_q (add_q z x) y = add_q (add_q z y) x := by
  unfold add_q
  rw [List.map_map, List.map_map]
  apply List.map_congr_left
  intro kv _
  simp only [Function.comp]
  by_cases hk : kv.1 ∈ ks
  · obtain ⟨bx, _, hfx⟩ := dict_get_numeric hx hk
    obtain ⟨c, _, hfy⟩ := dict_get_numeric hy hk
    rcases kv with ⟨k, v⟩
    rcases v with _ | a
    · simp [hfx, hfy]
    · simp only at hfx hfy
      simp [hfx, hfy]
      omega
  · have hfx : x.find? (fun kw => kw.1 == kv.1) = none :=
      find_entry_not_mem (by rw [numeric_over_keys hx]; exact hk)
    have hfy : y.find? (fun kw => kw.1 == kv.1) = none :=
      find_entry_not_mem (by rw [numeric_over_keys hy]; exact hk)
    simp [hfx, hfy]

theorem numeric_over_tail {k : String} {ks : List String} {e : String × Option Int}
    {d : QuotaDict} (h : numeric_over (k :: ks) (e :: d) = true) :
    numeric_over ks d = true := by
  simp only [numeric_over, Bool.and_eq_true, beq_iff_eq, List.all_eq_true,
    List.map_cons, List.cons.injEq, List.mem_cons] at h ⊢
  exact ⟨h.1.2, fun x hx => h.2 x (Or.inr hx)⟩

theorem add_q_zero {ks : List String} (hnd : ks.Nodup) :
    ∀ d : QuotaDict, numeric_over ks d = true → add_q (zero_q ks) d = d := by
  induction ks with
  | nil =>
    intro d hd
    have h0 : d = [] := by
      have := numeric_over_keys hd
      simpa using List.map_eq_nil_iff.mp this
    subst h0
    rfl
  | cons k ks' ih =>
    intro d hd
    rcases d with _ | ⟨⟨k0, v⟩, d'⟩
    · exact absurd (numeric_over_keys hd) (by simp)
    · have hkeys := numeric_over_keys hd
      simp only [List.map_cons, List.cons.injEq] at hkeys
      obtain ⟨hk0, hkeys'⟩ := hkeys
      subst hk0
      obtain ⟨a, ha⟩ := Option.isSome_iff_exists.mp
        (numeric_over_values hd (k0, v) (by simp))
      simp only at ha
      subst ha
      have hknotin : k0 ∉ ks' := (List.nodup_cons.mp hnd).1
      have hzq : zero_q (k0 :: ks') = (k0, (some 0 : Option Int)) :: zero_q ks' := rfl
      unfold add_q
      rw [hzq, List.map_cons]
      congr 1
      · simp
      · have hstep : ∀ kw ∈ zero_q ks',
            (kw.1,
              match kw.2,
                (((k0, some a) :: d').find? (fun kx => kx.1 == kw.1)).map
                  (fun kx => kx.2) with
              | some c1, some (some c2) => some (c1 + c2)
              | _, _ => kw.2) =
            (kw.1,
              match kw.2,
                (d'.find? (fun kx => kx.1 == kw.1)).map (fun kx => kx.2) with
              | some c1, some (some c2) => some (c1 + c2)
              | _, _ => kw.2) := by
          intro kw hkw
          have hkwk : kw.1 ∈ ks' := by
            have : kw.1 ∈ (zero_q ks').map (fun kv => kv.1) :=
              List.mem_map_of_mem _ hkw
            simpa [zero_q, List.map_map] using this
          have hne : ¬((k0, some a).1 == kw.1) = true := by
            simp only [beq_iff_eq]
            intro hcontra
            exact hknotin (hcontra ▸ hkwk)
          have hfind : ((k0, some a) :: d').find? (fun kx => kx.1 == kw.1) =
              d'.find? (fun kx => kx.1 == kw.1) := by
            apply List.find?_cons_of_neg
            simpa using hne
          rw [hfind]
        calc (zero_q ks').map _ = (zero_q ks').map _ := List.map_congr_left hstep
          _ = d' := ih (List.nodup_cons.mp hnd).2 d'
              (numeric_over_tail hd)

theorem numeric_view_iff {ks : List String} {v : UsageView} :
    numeric_view ks v = true ↔
      ∃ d1 d2 d3 d4,
        v.user_quota = some d1 ∧ numeric_over ks d1 = true ∧
        v.user_quota_usage = some d2 ∧ numeric_over ks d2 = true ∧
        v.total_quota = some d3 ∧ numeric_over ks d3 = true ∧
        v.total_quota_usage = some d4 ∧ numeric_over ks d4 = true := by
  unfold numeric_view
  cases h1 : v.user_quota <;> cases h2 : v.user_quota_usage <;>
    cases h3 : v.total_quota <;> cases h4 : v.total_quota_usage <;> simp [and_assoc]

theorem merge_views_numeric {ks : List String} {a b : UsageView}
    (ha : numeric_view ks a = true) (hb : numeric_view ks b = true) :
    merge_views a b = .ok (merge_views_num a b) := by
  obtain ⟨d1, d2, d3, d4, h1, h1n, h2, h2n, h3, h3n, h4, h4n⟩ := numeric_view_iff.mp ha
  obtain ⟨e1, e2, e3, e4, g1, g1n, g2, g2n, g3, g3n, g4, g4n⟩ := numeric_view_iff.mp hb
  unfold merge_views merge_views_num merge_field_num
  rw [h1, h2, h3, h4, g1, g2, g3, g4,
    add_usage_numeric h1n g1n, add_usage_numeric h2n g2n,
    add_usage_numeric h3n g3n, add_usage_numeric h4n g4n]

theorem merge_views_num_numeric {ks : List String} {a b : UsageView}
    (ha : numeric_view ks a = true) (hb : numeric_view ks b = true) :
    numeric_view ks (merge_views_num a b) = true := by
  obtain ⟨d1, d2, d3, d4, h1, h1n, h2, h2n, h3, h3n, h4, h4n⟩ := numeric_view_iff.mp ha
  obtain ⟨e1, e2, e3, e4, g1, g1n, g2, g2n, g3, g3n, g4, g4n⟩ := numeric_view_iff.mp hb
  rw [numeric_view_iff]
  refine ⟨add_q d1 e1, add_q d2 e2, add_q d3 e3, add_q d4 e4, ?_⟩
  simp [merge_views_num, merge_field_num, h1, h2, h3, h4, g1, g2, g3, g4,
    add_q_numeric h1n g1n, add_q_numeric h2n g2n,
    add_q_numeric h3n g3n, add_q_numeric h4n g4n]

theorem merge_field_num_comm {ks : List String} {dx dy : QuotaDict}
    (hx : numeric_over ks dx = true) (hy : numeric_over ks dy = true)
    (o : Option QuotaDict) :
    merge_field_num (merge_field_num o (some dx)) (some dy) =
      merge_field_num (merge_field_num o (some dy)) (some dx) := by
  cases o with
  | none => rfl
  | some dz =>
    simp only [merge_field_num, Option.some.injEq]
    exact add_q_comm hx hy dz

theorem merge_views_num_comm {ks : List String} {x y : UsageView}
    (hx : numeric_view ks x = true) (hy : numeric_view ks y = true)
    (z : UsageView) :
    merge_views_num (merge_views_num z x) y =
      merge_views_num (merge_views_num z y) x := by
  obtain ⟨d1, d2, d3, d4, h1, h1n, h2, h2n, h3, h3n, h4, h4n⟩ := numeric_view_iff.mp hx
  obtain ⟨e1, e2, e3, e4, g1, g1n, g2, g2n, g3, g3n, g4, g4n⟩ := numeric_view_iff.mp hy
  unfold merge_views_num
  simp only [h1, h2, h3, h4, g1, g2, g3, g4]
  congr 1
  · exact merge_field_num_comm h1n g1n z.user_quota
  · exact merge_field_num_comm h2n g2n z.user_quota_usage
  · exact merge_field_num_comm h3n g3n z.total_quota
  · exact merge_field_num_comm h4n g4n z.total_quota_usage

theorem merge_views_num_zero {ks : List String} (hnd : ks.Nodup) {v : UsageView}
    (hv : numeric_view ks v = true) :
    merge_views_num (zero_view ks) v = v := by
  obtain ⟨f1, f2, f3, f4⟩ := v
  obtain ⟨d1, d2, d3, d4, h1, h1n, h2, h2n, h3, h3n, h4, h4n⟩ := numeric_view_iff.mp hv
  simp only at h1 h2 h3 h4
  subst h1 h2 h3 h4
  simp [merge_views_num, zero_view, merge_field_num,
    add_q_zero hnd d1 h1n, add_q_zero hnd d2 h2n,
    add_q_zero hnd d3 h3n, add_q_zero hnd d4 h4n]

theorem get_all_usage_loop_numeric {ks : List String} {u : Nat} :
    ∀ (rs : List Region) (all : UsageView) (entries : List (String × UsageView)),
    numeric_view ks all = true →
    (∀ r ∈ rs, numeric_view ks (region_to_usage r u) = true) →
    get_all_usage_loop u all entries rs =
      .ok { all := (rs.map (fun r => region_to_usage r u)).foldl merge_views_num all,
            per_region :=
              entries ++ rs.map (fun r => (toString r.id, region_to_usage r u)) } := by
  intro rs
  induction rs with
  | nil => intro all entries _ _; simp [get_all_usage_loop]
  | cons r rest ih =>
    intro all entries hall hnum
    have hcur := hnum r (by simp)
    have hmv := merge_views_numeric hall hcur
    show (match merge_views all (region_to_usage r u) with
          | .error e => Except.error e
          | .ok all2 => get_all_usage_loop u all2
              (entries ++ [(toString r.id, region_to_usage r u)]) rest) = _
    rw [hmv]
    show get_all_usage_loop u (merge_views_num all (region_to_usage r u))
        (entries ++ [(toString r.id, region_to_usage r u)]) rest = _
    rw [ih _ _ (merge_views_num_numeric hall hcur) (fun r2 h => hnum r2 (by simp [h]))]
    simp

/-- C4 (amended): the claim fails in general — the merge iterates only
the first operand's keys and tests presence by truthiness, so permuting
the regions can change the aggregate.  What holds instead: when every
region's usage view is a fully numeric mapping over one common duplicate-
free key list, the `"all"` aggregate of `get_all_usage` is independent of
the order of the region collection. -/
theorem claim_c4 (auth : AuthDB) (db1 db2 : DB) (u : Nat) (ks : List String)
    (hnd : ks.Nodup)
    (hperm : db1.regions.Perm db2.regions)
    (hnum : ∀ r ∈ db1.regions, numeric_view ks (region_to_usage r u) = true) :
    (get_all_usage auth db1 u).map AllUsage.all =
      (get_all_usage auth db2 u).map AllUsage.all := by
  have hq1 := query_eq_filter auth u db1.regions
  have hq2 := query_eq_filter auth u db2.regions
  have hpq : (query_regions_with_permissions auth u db1.regions).Perm
      (query_regions_with_permissions auth u db2.regions) := by
    rw [hq1, hq2]
    exact hperm.filter _
  have hsub1 : ∀ r ∈ query_regions_with_permissions auth u db1.regions,
      numeric_view ks (region_to_usage r u) = true := by
    intro r hr
    rw [hq1] at hr
    exact hnum r (List.mem_of_mem_filter hr)
  have hsub2 : ∀ r ∈ query_regions_with_permissions auth u db2.regions,
      numeric_view ks (region_to_usage r u) = true := by
    intro r hr
    exact hsub1 r (hpq.mem_iff.mpr hr)
  unfold get_all_usage
  rcases hq1c : query_regions_with_permissions auth u db1.regions with _ | ⟨r0, rest⟩ <;>
    rcases hq2c : query_regions_with_permissions auth u db2.regions with _ | ⟨s0, rest2⟩
  · rfl
  · rw [hq1c, hq2c] at hpq
    exact absurd hpq.length_eq (by simp)
  · rw [hq1c, hq2c] at hpq
    exact absurd hpq.length_eq (by simp)
  · rw [hq1c] at hsub1
    rw [hq2c] at hsub2
    rw [hq1c, hq2c] at hpq
    have h0 : numeric_view ks (region_to_usage r0 u) = true := hsub1 r0 (by simp)
    have h0' : numeric_view ks (region_to_usage s0 u) = true := hsub2 s0 (by simp)
    show Except.map AllUsage.all (get_all_usage_loop u (region_to_usage r0 u)
        [(toString r0.id, region_to_usage r0 u)] rest) =
      Except.map AllUsage.all (get_all_usage_loop u (region_to_usage s0 u)
        [(toString s0.id, region_to_usage s0 u)] rest2)
    rw [get_all_usage_loop_numeric rest _ _ h0 (fun r h => hsub1 r (by simp [h])),
      get_all_usage_loop_numeric rest2 _ _ h0' (fun r h => hsub2 r (by simp [h]))]
    simp only [Except.map]
    congr 1
    have hfold1 :
        (rest.map (fun r => region_to_usage r u)).foldl merge_views_num
            (region_to_usage r0 u) =
          ((r0 :: rest).map (fun r => region_to_usage r u)).foldl merge_views_num
            (zero_view ks) := by
      simp [List.foldl_cons, merge_views_num_zero hnd h0]
    have hfold2 :
        (rest2.map (fun r => region_to_usage r u)).foldl merge_views_num
            (region_to_usage s0 u) =
          ((s0 :: rest2).map (fun r => region_to_usage r u)).foldl merge_views_num
            (zero_view ks) := by
      simp [List.foldl_cons, merge_views_num_zero hnd h0']
    rw [hfold1, hfold2]
    have hmapperm : ((r0 :: rest).map (fun r => region_to_usage r u)).Perm
        ((s0 :: rest2).map (fun r => region_to_usage r u)) := hpq.map _
    refine hmapperm.foldl_eq' ?_ (zero_view ks)
    intro x hx y hy z
    obtain ⟨rx, hrx, rfl⟩ := List.mem_map.mp hx
    obtain ⟨ry, hry, rfl⟩ := List.mem_map.mp hy
    exact merge_views_num_comm (hsub1 rx hrx) (hsub1 ry hry) z

/-- Admin auth environment for the C4 counterexample and witness. -/
def c4_auth : AuthDB := ⟨fun _ => true, fun _ => []⟩

/-- C4 counterexample region 1: every quota view is `{"x": 1}`. -/
def c4_region1 : Region :=
  { id := 1, name := "rdu", enabled := true, reservations_enabled := true,
    location_id := none, owner_group_id := 5, users_group_id := none,
    tower_id := 1, openstack_id := 1, satellite_id := none, dns_id := none,
    user_quota := some [("x", some 1)], total_quota := some [("x", some 1)],
    get_user_quota_usage := fun _ => some [("x", some 1)],
    get_total_quota_usage := some [("x", some 1)] }

/-- C4 counterexample region 2: every quota view is `{"x": 1, "y": 1}`. -/
def c4_region2 : Region :=
  { id := 2, name := "phx", enabled := true, reservations_enabled := true,
    location_id := none, owner_group_id := 5, users_group_id := none,
    tower_id := 1, openstack_id := 1, satellite_id := none, dns_id := none,
    user_quota := some [("x", some 1), ("y", some 1)],
    total_quota := some [("x", some 1), ("y", some 1)],
    get_user_quota_usage := fun _ => some [("x", some 1), ("y", some 1)],
    get_total_quota_usage := some [("x", some 1), ("y", some 1)] }

/-- The two C4 counterexample collections: the same regions in the two
orders. -/
def c4_db1 : DB := ⟨[c4_region1, c4_region2], [], [], [], []⟩

/-- See `c4_db1`. -/
def c4_db2 : DB := ⟨[c4_region2, c4_region1], [], [], [], []⟩

/-- C4 counterexample: folding the same two regions in the two orders
yields different `"all"` aggregates — the `"y"` limit is dropped when the
first operand lacks the key — refuting order independence as claimed. -/
theorem claim_c4_counterexample :
    (get_all_usage c4_auth c4_db1 7).map (fun d => d.all.user_quota) =
      .ok (some [("x", some 2)]) ∧
    (get_all_usage c4_auth c4_db2 7).map (fun d => d.all.user_quota) =
      .ok (some [("x", some 2), ("y", some 1)]) ∧
    (Except.ok (some [("x", (some 2 : Option Int))]) :
        Except ApiError (Option QuotaDict)) ≠
      .ok (some [("x", some 2), ("y", some 1)]) := by
  refine ⟨rfl, rfl, ?_⟩
  intro h
  exact absurd (Option.some.inj (Except.ok.inj h)) (by decide)

/-- C4 witness region 1: every quota view is `{"vm": 1}`. -/
def c4w_region1 : Region :=
  { id := 1, name := "rdu", enabled := true, reservations_enabled := true,
    location_id := none, owner_group_id := 5, users_group_id := none,
    tower_id := 1, openstack_id := 1, satellite_id := none, dns_id := none,
    user_quota := some [("vm", some 1)], total_quota := some [("vm", some 1)],
    get_user_quota_usage := fun _ => some [("vm", some 1)],
    get_total_quota_usage := some [("vm", some 1)] }

/-- C4 witness region 2: every quota view is `{"vm": 2}`. -/
def c4w_region2 : Region :=
  { id := 2, name := "phx", enabled := true, reservations_enabled := true,
    location_id := none, owner_group_id := 5, users_group_id := none,
    tower_id := 1, openstack_id := 1, satellite_id := none, dns_id := none,
    user_quota := some [("vm", some 2)], total_quota := some [("vm", some 2)],
    get_user_quota_usage := fun _ => some [("vm", some 2)],
    get_total_quota_usage := some [("vm", some 2)] }

/-- The two C4 witness collections, in the two orders. -/
def c4w_db1 : DB := ⟨[c4w_region1, c4w_region2], [], [], [], []⟩

/-- See `c4w_db1`. -/
def c4w_db2 : DB := ⟨[c4w_region2, c4w_region1], [], [], [], []⟩

theorem claim_c4_witness :
    (["vm"] : List String).Nodup ∧
    (get_all_usage c4_auth c4w_db1 7).map AllUsage.all =
      (get_all_usage c4_auth c4w_db2 7).map AllUsage.all := by
  refine ⟨by decide, claim_c4 c4_auth c4w_db1 c4w_db2 7 ["vm"] (by decide) ?_ (by decide)⟩
  exact List.Perm.swap c4w_region2 c4w_region1 []

end RHub



